import Mathlib

/-!
Verification of the Kilimo Smart agricultural advisory gateway
(`src/main.py`): a shallow embedding of its two webhook handlers
(the USSD menu protocol and the SMS dialogue protocol), the static
advisory lookup functions, the session stores, the outbound SMS
normalization and the session expiry sweep, together with theorems
settling the specified properties.

Conventions of the embedding:
* Python strings are Lean `String`s; the character-level operations
  (`lower`, `strip`, `split`, `capitalize`, `lstrip`) are modelled on
  the underlying `List Char` so that everything evaluates by `decide`.
* The in-process dict stores are association lists with `slookup`,
  `sinsert` (update-or-append, mirroring dict assignment) and `serase`
  (mirroring `del`).
* External effects are oracle parameters: the weather fetch result is
  an `Option WeatherData`, the generative advisor is a `Bool`
  (configured or not) plus an `Option String` (the call outcome), and
  outbound SMS sends are collected in the returned outcome.
* Timestamps are natural numbers (seconds); `datetime.now()` is the
  `now` parameter.
-/

/-- Python `str.lower` (ASCII case fold, which covers every character
these handlers compare). -/
def pyLower (s : String) : String := String.mk (s.data.map Char.toLower)

/-- Python `str.strip()`: drop whitespace from both ends. -/
def pyStrip (s : String) : String :=
  String.mk (((s.data.dropWhile Char.isWhitespace).reverse.dropWhile
    Char.isWhitespace).reverse)

/-- Python `str.capitalize()`: first character upper-cased, the rest
lower-cased. -/
def pyCapitalize (s : String) : String :=
  match s.data with
  | [] => ""
  | c :: cs => String.mk (c.toUpper :: cs.map Char.toLower)

/-- Python `str.replace(" ", "")`: remove every space character. -/
def removeSpaces (s : String) : String :=
  String.mk (s.data.filter (fun c => c ≠ ' '))

/-- Python `str.lstrip("0")`: drop every leading zero character. -/
def pyLstripZeros (s : String) : String :=
  String.mk (s.data.dropWhile (fun c => c = '0'))

/-- Auxiliary for `pySplitStar`: accumulate the current segment
(reversed) while scanning the character list. -/
def splitStarAux : List Char → List Char → List String
  | [], acc => [String.mk acc.reverse]
  | c :: cs, acc =>
    if c = '*' then String.mk acc.reverse :: splitStarAux cs []
    else splitStarAux cs (c :: acc)

/-- Python `text.split("*")` (note `"".split("*") == [""]`). -/
def pySplitStar (s : String) : List String := splitStarAux s.data []

/-- Python `text.split("*", 1)[1]`: everything after the first `*`.
Only used by the handler when `*` occurs in the text. -/
def pySplitStarOnceTail (s : String) : String :=
  String.mk ((s.data.dropWhile (fun c => c ≠ '*')).drop 1)

/-- Python `"*" in text`. -/
def containsStar (s : String) : Bool := s.data.contains '*'

/-- Boolean prefix test on strings, via the character lists (models a
response string beginning with a given marker such as `END `). -/
def beginsWith (s marker : String) : Bool := marker.data.isPrefixOf s.data

/-- Association-list lookup, modelling Python `d[k]` / `k in d`. -/
def slookup {α : Type} : List (String × α) → String → Option α
  | [], _ => none
  | (k, v) :: rest, key => if k = key then some v else slookup rest key

/-- Association-list update-or-append, modelling Python `d[k] = v`. -/
def sinsert {α : Type} : List (String × α) → String → α → List (String × α)
  | [], key, v => [(key, v)]
  | (k, w) :: rest, key, v =>
    if k = key then (key, v) :: rest else (k, w) :: sinsert rest key v

/-- Association-list removal, modelling Python `del d[k]` (guarded by
`if k in d`, hence a no-op when the key is absent). -/
def serase {α : Type} (l : List (String × α)) (key : String) :
    List (String × α) :=
  l.filter (fun p => p.1 ≠ key)

theorem slookup_serase {α : Type} (l : List (String × α)) (key : String) :
    slookup (serase l key) key = none := by
  induction l with
  | nil => rfl
  | cons p rest ih =>
    by_cases h : p.1 = key
    · simpa [serase, h] using ih
    · simpa [serase, slookup, h] using ih

theorem slookup_sinsert {α : Type} (l : List (String × α)) (key : String)
    (v : α) : slookup (sinsert l key v) key = some v := by
  induction l with
  | nil => simp [sinsert, slookup]
  | cons p rest ih =>
    rcases p with ⟨k, w⟩
    by_cases h : k = key
    · simp [sinsert, slookup, h]
    · simp [sinsert, slookup, h, ih]

theorem slookup_sinsert_ne {α : Type} (l : List (String × α))
    (key key' : String) (v : α) (h : key ≠ key') :
    slookup (sinsert l key v) key' = slookup l key' := by
  induction l with
  | nil => simp [sinsert, slookup, h]
  | cons p rest ih =>
    rcases p with ⟨k, w⟩
    by_cases hk : k = key
    · subst hk
      simp [sinsert, slookup, h]
    · simp [sinsert, slookup, hk, ih]

/-- The static crop → region → price table of `get_crop_prices`. -/
def crop_prices_table : List (String × List (String × String)) :=
  [("maize", [("Dar es Salaam", "780 TZS/kg"), ("Iringa", "720 TZS/kg"),
      ("Mbeya", "750 TZS/kg")]),
   ("beans", [("Dar es Salaam", "1950 TZS/kg"), ("Morogoro", "1800 TZS/kg")]),
   ("rice", [("Dar es Salaam", "1300 TZS/kg"), ("Mwanza", "1200 TZS/kg")]),
   ("tomato", [("Dar es Salaam", "1650 TZS/kg"), ("Arusha", "1450 TZS/kg")])]

/-- Crop-name normalization used by the lookup functions:
`crop_name.lower().replace(" ", "")`. -/
def normalizeCrop (crop_name : String) : String :=
  removeSpaces (pyLower crop_name)

/-- `get_crop_prices(crop_name, region="Dar es Salaam")` from
`src/main.py`: normalizes the crop name, looks it and the (raw) region
up in the static table, and falls back to a "haipatikani" message
naming the crop and region. -/
def get_crop_prices (crop_name : String)
    (region : String := "Dar es Salaam") : String :=
  match slookup crop_prices_table (normalizeCrop crop_name) with
  | some regions =>
    match slookup regions region with
    | some price =>
      "Bei ya sasa ya " ++ pyCapitalize crop_name ++ " " ++ region ++ ": " ++
        price ++ "."
    | none =>
      "Bei ya " ++ pyCapitalize crop_name ++ " " ++ region ++
        " haipatikani kwa sasa. Jaribu zao au eneo tofauti."
  | none =>
    "Bei ya " ++ pyCapitalize crop_name ++ " " ++ region ++
      " haipatikani kwa sasa. Jaribu zao au eneo tofauti."

/-- The static crop → forecast table of `get_crop_price_forecast`. -/
def forecasts_table : List (String × String) :=
  [("maize", "Ongezeko kidogo la 3-5% linatarajiwa katika wiki mbili zijazo kutokana na mahitaji ya msimu."),
   ("beans", "Bei zinatarajiwa kuwa tulivu kwa mwezi ujao."),
   ("rice", "Kupungua kwa asilimia 2-4% kunaweza kutokea mwezi ujao kadiri mavuno mapya yanavyoingia sokoni."),
   ("tomato", "Bei zinaweza kubadilika sana katika wiki zijazo kutokana na usambazaji usiotabirika.")]

/-- `get_crop_price_forecast(crop_name)` from `src/main.py`. -/
def get_crop_price_forecast (crop_name : String) : String :=
  match slookup forecasts_table (normalizeCrop crop_name) with
  | some f => "Utabiri wa " ++ pyCapitalize crop_name ++ ": " ++ f
  | none => "Utabiri wa " ++ pyCapitalize crop_name ++ " haupatikani."

/-- `get_logistics_info(item_type)` from `src/main.py`. -/
def get_logistics_info (item_type : String) : String :=
  if pyLower item_type = "grain storage" then
    "Vituo vikuu vya kuhifadhia nafaka karibu na Dar es Salaam ni maghala ya NFRA Pugu na Kurasini. Uwezo hubadilika kulingana na msimu. Wasiliana nao moja kwa moja kwa upatikanaji."
  else if pyLower item_type = "transport" then
    "Kwa usafirishaji, fikiria vyama vya malori vya ndani au watoa huduma kama Kilimo Express (hypothetical) kwa chaguo nafuu kutoka mikoa mikuu ya kilimo. Daima thibitisha hali ya gari na sifa za dereva."
  else
    "Ushauri wa jumla wa usafirishaji: Ufungashaji sahihi na usafirishaji wa haraka ni muhimu kupunguza hasara baada ya mavuno. Tafuta vituo vya kupoezea kwa bidhaa zinazoharibika."

example : get_crop_prices "Beans" "Dar es Salaam" =
    "Bei ya sasa ya Beans Dar es Salaam: 1950 TZS/kg." := by decide

example : get_crop_prices "Beans" "dar es salaam" =
    "Bei ya Beans dar es salaam haipatikani kwa sasa. Jaribu zao au eneo tofauti." := by decide

/-- Recipient normalization of `send_sms(phone, message)` from
`src/main.py`: numbers already in international format (leading `+`)
are sent unchanged; otherwise `phone.lstrip("0")` is prefixed with
`+255`. The function returns the (recipient, body) pair handed to the
Africa\x27s Talking client. -/
def send_sms (phone : String) (message : String) : String × String :=
  let recipient :=
    if beginsWith phone "+" then phone
    else "+255" ++ pyLstripZeros phone
  (recipient, message)

/-- The behaviour the spec describes for recipient normalization:
strip exactly one leading local-dialing zero (if present) and prepend
the fixed country prefix. Written from the spec\x27s words, to compare
against `send_sms`. -/
def send_sms_spec_recipient (phone : String) : String :=
  if beginsWith phone "+" then phone
  else "+255" ++ (if beginsWith phone "0" then String.mk (phone.data.drop 1)
    else phone)

/-- A USSD menu session record (`ussd_sessions[session_id]` in
`src/main.py`): phone number, current step name, scratch data dict and
last-activity timestamp. -/
structure UssdSession where
  phone_number : String
  current_step : String
  data : List (String × String)
  last_active : Nat
deriving DecidableEq, Repr

/-- The in-memory `ussd_sessions` store. -/
abbrev UssdStore := List (String × UssdSession)

/-- `SESSION_TIMEOUT = timedelta(minutes=10)`, in seconds. -/
def SESSION_TIMEOUT : Nat := 10 * 60

/-- `cleanup_old_sessions()` from `src/main.py`, acting on an explicit
store and clock: collects every session whose `last_active` is more
than `SESSION_TIMEOUT` before `current_time` and deletes it. The
Python function has no `return` statement, so its value is `None`;
the second component models that returned value. -/
def cleanup_old_sessions (current_time : Nat) (store : UssdStore) :
    UssdStore × Option Nat :=
  (store.filter
    (fun p => ¬ current_time - p.2.last_active > SESSION_TIMEOUT), none)

/-- Weather snapshot as returned by `get_current_weather` on success. -/
structure WeatherData where
  temperature : Int
  humidity : Nat
  description : String
  wind_speed : Int
  city : String
  forecast_summary : String
deriving Repr

/-- The main-menu body shown at `welcome` and on every `99` return. -/
def mainMenuBody : String :=
  "Karibu Kilimo Smart! Chagua Huduma:\n1. Bei za Mazao\n2. Ushauri wa Kilimo (AI)\n3. Tahadhari ya Hali ya Hewa\n4. Taarifa za Uhifadhi na Usafirishaji\n5. Toka"

/-- The main-menu body re-shown after an invalid main-menu choice. -/
def invalidMainMenuBody : String :=
  "Chaguo batili. Tafadhali chagua tena:\n1. Bei za Mazao\n2. Ushauri wa Kilimo (AI)\n3. Tahadhari ya Hali ya Hewa\n4. Taarifa za Uhifadhi na Usafirishaji\n5. Toka"

/-- The crop-selection menu body. -/
def cropMenuBody : String :=
  "Chagua Zao:\n1. Mahindi\n2. Maharage\n3. Mchele\n4. Nyanya\n99. Rudi Menu Kuu"

/-- The crop-selection menu body re-shown after an invalid choice. -/
def invalidCropMenuBody : String :=
  "Chaguo batili. Tafadhali chagua zao:\n1. Mahindi\n2. Maharage\n3. Mchele\n4. Nyanya\n99. Rudi Menu Kuu"

/-- The AI-advice query prompt body. -/
def aiQueryBody : String :=
  "Andika swali lako la kilimo:\n(Mfano: Nipe ushauri wa kulima mahindi mkoani Morogoro?)\n99. Rudi Menu Kuu"

/-- The AI-advice query prompt body re-shown on empty query. -/
def aiQueryRetryBody : String :=
  "Tafadhali ingiza swali lako la kilimo:\n(Mfano: Nipe ushauri wa kulima mahindi mkoani Morogoro?)\n99. Rudi Menu Kuu"

/-- The logistics menu body. -/
def logisticsMenuBody : String :=
  "Chagua aina ya Taarifa:\n1. Uhifadhi wa Nafaka\n2. Usafirishaji\n99. Rudi Menu Kuu"

/-- The logistics menu body re-shown after an invalid choice. -/
def invalidLogisticsMenuBody : String :=
  "Chaguo batili. Tafadhali chagua:\n1. Uhifadhi wa Nafaka\n2. Usafirishaji\n99. Rudi Menu Kuu"

/-- The `crop_map` dict of the crop-price step. -/
def crop_map : List (String × String) :=
  [("1", "Maize"), ("2", "Beans"), ("3", "Rice"), ("4", "Tomato")]

/-- The weather branch response text of the USSD handler. -/
def weatherResponse (w : Option WeatherData) : String :=
  match w with
  | some d =>
    "END Hali ya hewa " ++ d.city ++ ":\nJoto: " ++ toString d.temperature ++
      "°C, Unyevunyevu: " ++ toString d.humidity ++ "%\nMaelezo: " ++
      d.description ++ "\nUpepo: " ++ toString d.wind_speed ++
      " m/s\nUtabiri: " ++ d.forecast_summary
  | none => "END Samahani, imeshindikana kupata taarifa za hali ya hewa kwa sasa."

/-- What a USSD branch does to the stored session besides producing
its response text: move the session to a new step (`session_data
["current_step"] = ...` in the source), leave it unchanged (the
"stay in current step" re-prompt branches), or delete it (`del
ussd_sessions[session_id]` on the terminal branches). -/
inductive UssdEffect where
  | setStep (step : String)
  | keep
  | delete
deriving DecidableEq, Repr

/-- The branch dispatch of `agricultural_ussd` from `src/main.py`: the
if/elif cascade on `current_step` and `current_input`, producing the
response text and the session effect of the chosen branch. `text` is
the full accumulated (stripped) input, needed by the free-text query
branch. -/
def ussd_dispatch (weatherResult : Option WeatherData) (aiAdvice : String)
    (current_step text current_input : String) : String × UssdEffect :=
  if current_step = "welcome" ∧ current_input = "default" then
    ("CON " ++ mainMenuBody, .setStep "main_menu_choice")
  else if current_step = "main_menu_choice" then
    if current_input = "1" then
      ("CON " ++ cropMenuBody, .setStep "crop_price_choice")
    else if current_input = "2" then
      ("CON " ++ aiQueryBody, .setStep "ai_advice_query")
    else if current_input = "3" then
      (weatherResponse weatherResult, .delete)
    else if current_input = "4" then
      ("CON " ++ logisticsMenuBody, .setStep "logistics_info_choice")
    else if current_input = "5" then
      ("END Asante kwa kutumia Kilimo Smart! Kwaheri.", .delete)
    else
      ("CON " ++ invalidMainMenuBody, .keep)
  else if current_step = "crop_price_choice" then
    if current_input = "99" then
      ("CON " ++ mainMenuBody, .setStep "main_menu_choice")
    else
      let selected_crop := slookup crop_map current_input
      if selected_crop.isSome then
        ("END " ++ get_crop_prices (selected_crop.getD "") "Dar es Salaam" ++
           "\n" ++ get_crop_price_forecast (selected_crop.getD "") ++
           "\nAsante kwa kutumia Kilimo Smart!", .delete)
      else ("CON " ++ invalidCropMenuBody, .keep)
  else if current_step = "ai_advice_query" then
    if current_input = "99" then
      ("CON " ++ mainMenuBody, .setStep "main_menu_choice")
    else
      let user_query := if containsStar text then pySplitStarOnceTail text
        else text
      if pyStrip user_query ≠ "" then
        ("END " ++ aiAdvice ++ "\nAsante kwa kutumia Kilimo Smart!", .delete)
      else
        ("CON " ++ aiQueryRetryBody, .keep)
  else if current_step = "logistics_info_choice" then
    if current_input = "99" then
      ("CON " ++ mainMenuBody, .setStep "main_menu_choice")
    else if current_input = "1" then
      ("END " ++ get_logistics_info "grain storage" ++
         "\nAsante kwa kutumia Kilimo Smart!", .delete)
    else if current_input = "2" then
      ("END " ++ get_logistics_info "transport" ++
         "\nAsante kwa kutumia Kilimo Smart!", .delete)
    else
      ("CON " ++ invalidLogisticsMenuBody, .keep)
  else
    ("END Samahani, kuna tatizo. Tafadhali anza tena.", .delete)

/-- Apply a dispatched branch result to the store: the session-record
write, no-op, or deletion performed inside the chosen branch. -/
def ussd_apply (store2 : UssdStore) (sessionId : String) (sd : UssdSession) :
    String × UssdEffect → String × UssdStore
  | (resp, .setStep st) =>
    (resp, sinsert store2 sessionId { sd with current_step := st })
  | (resp, .keep) => (resp, store2)
  | (resp, .delete) => (resp, serase store2 sessionId)

/-- The USSD webhook handler `agricultural_ussd` from `src/main.py`,
over an explicit store and clock. `weatherResult` is the outcome of
the `get_current_weather()` call and `aiAdvice` the string returned by
`get_gemini_advice` (which never raises). Returns the plain-text
response body and the updated `ussd_sessions` store. -/
def agricultural_ussd (now : Nat) (weatherResult : Option WeatherData)
    (aiAdvice : String) (store : UssdStore)
    (sessionId _serviceCode phoneNumber rawText : String) :
    String × UssdStore :=
  let text := pyStrip rawText
  let store1 :=
    if (slookup store sessionId).isNone then
      sinsert store sessionId
        { phone_number := phoneNumber, current_step := "welcome",
          data := [], last_active := now }
    else store
  let sd0 := (slookup store1 sessionId).getD
    { phone_number := phoneNumber, current_step := "welcome",
      data := [], last_active := now }
  let sd := { sd0 with last_active := now }
  let store2 := sinsert store1 sessionId sd
  let current_input := if text = "" then "default"
    else (pySplitStar text).getLastD ""
  ussd_apply store2 sessionId sd
    (ussd_dispatch weatherResult aiAdvice sd.current_step text current_input)

example :
    (agricultural_ussd 0 none "" [] "s1" "" "p" "").1 =
      "CON " ++ mainMenuBody := by decide

example :
    (agricultural_ussd 0 none "" [] "s1" "" "p" "1").1 =
      "END Samahani, kuna tatizo. Tafadhali anza tena." := by decide

/-- One turn of an SMS conversation history:
`{"role": ..., "parts": [...]}`. -/
structure SmsTurn where
  role : String
  parts : List String
deriving DecidableEq, Repr

/-- The in-memory `sms_conversations` store. -/
abbrev SmsStore := List (String × List SmsTurn)

/-- The initial prompt sent on a new or reset SMS session. -/
def smsWelcomeMessage : String :=
  "Karibu Kilimo Smart! Mimi ni mtaalamu wako wa kilimo kupitia SMS. Unaweza kuniuliza chochote kuhusu kilimo, mfano: \x27Nipe ushauri wa kulima mahindi.\x27 au \x27exit\x27 kuacha."

/-- The farewell sent on the `exit` keyword. -/
def smsFarewellMessage : String :=
  "Asante kwa kutumia huduma ya Kilimo Smart. Kwaheri!"

/-- The fixed reply when the Gemini model was never configured. -/
def smsUnavailableMessage : String :=
  "Samahani, huduma ya maelezo ya kilimo haipatikani kwa sasa. Jaribu tena baada ya muda mfupi."

/-- The fixed reply when the Gemini call raises. -/
def smsTechErrorMessage : String :=
  "Samahani, kumetokea hitilafu wakati wa kutafuta taarifa. Tafadhali jaribu tena."

/-- The observable outcome of one SMS webhook request: HTTP status of
the acknowledgement, the updated `sms_conversations` store, the
outbound `send_sms` calls made (in order), and how many calls went to
the Gemini advisor. -/
structure SmsOutcome where
  status : Nat
  store : SmsStore
  sentMessages : List (String × String)
  advisorCalls : Nat
deriving DecidableEq, Repr

/-- The SMS webhook handler `sms_chatbot` from `src/main.py`, over an
explicit store. `geminiAvailable` models whether `gemini_model` was
configured at startup; `geminiResult` is the outcome of the
`send_message` call where one is made (`none` models the call
raising). `sender`/`text` are the webhook form fields, `none` when
missing. -/
def sms_chatbot (geminiAvailable : Bool) (geminiResult : Option String)
    (store : SmsStore) (sender text : Option String) : SmsOutcome :=
  match sender, text with
  | some s, some t =>
    if s = "" ∨ t = "" then
      { status := 400, store := store, sentMessages := [], advisorCalls := 0 }
    else
      let session_id := s
      let user_message_normalized := pyStrip (pyLower t)
      if (slookup store session_id).isNone ∨
          user_message_normalized ∈ (["hi", "habari", "mambo"] : List String) then
        { status := 200, store := sinsert store session_id [],
          sentMessages := [send_sms s smsWelcomeMessage], advisorCalls := 0 }
      else
        let history := (slookup store session_id).getD []
        if user_message_normalized = "exit" then
          { status := 200, store := serase store session_id,
            sentMessages := [send_sms s smsFarewellMessage], advisorCalls := 0 }
        else
          let history2 := history ++
            [{ role := "user", parts := [user_message_normalized] }]
          if geminiAvailable then
            match geminiResult with
            | some reply =>
              { status := 200,
                store := sinsert store session_id
                  (history2 ++ [{ role := "model", parts := [reply] }]),
                sentMessages := [send_sms s reply], advisorCalls := 1 }
            | none =>
              { status := 200,
                store := sinsert store session_id
                  (history2 ++
                    [{ role := "model", parts := [smsTechErrorMessage] }]),
                sentMessages := [send_sms s smsTechErrorMessage],
                advisorCalls := 1 }
          else
            { status := 200,
              store := sinsert store session_id
                (history2 ++
                  [{ role := "model", parts := [smsUnavailableMessage] }]),
              sentMessages := [send_sms s smsUnavailableMessage],
              advisorCalls := 0 }
  | _, _ =>
    { status := 400, store := store, sentMessages := [], advisorCalls := 0 }

example :
    (sms_chatbot true (some "r") [("u", [⟨"user", ["q"]⟩])]
      (some "u") (some "HI ")).store = [("u", [])] := by decide

example :
    (sms_chatbot true (some "r") [] (some "u") (some "exit")).store =
      [("u", [])] := by decide

/-- C1: for every USSD request, if the returned response begins with
the terminal marker `END `, then the session identifier is absent from
`ussd_sessions` immediately after the handler returns, on every
terminal branch (weather success and failure, farewell, crop price,
advisor answer, logistics, and the unrecognized-state fallback). -/
theorem ussd_apply_fst (store2 : UssdStore) (sessionId : String)
    (sd : UssdSession) (r : String × UssdEffect) :
    (ussd_apply store2 sessionId sd r).1 = r.1 := by
  rcases r with ⟨resp, e⟩
  cases e <;> rfl

theorem ussd_apply_delete (store2 : UssdStore) (sessionId : String)
    (sd : UssdSession) (r : String × UssdEffect)
    (h : r.2 = UssdEffect.delete) :
    slookup (ussd_apply store2 sessionId sd r).2 sessionId = none := by
  rcases r with ⟨resp, e⟩
  cases e with
  | setStep st => simp at h
  | keep => simp at h
  | delete => exact slookup_serase store2 sessionId

theorem ussd_dispatch_end_delete (w : Option WeatherData)
    (ai step text input : String)
    (h : beginsWith (ussd_dispatch w ai step text input).1 "END " = true) :
    (ussd_dispatch w ai step text input).2 = UssdEffect.delete := by
  simp only [ussd_dispatch] at h ⊢
  split_ifs at h ⊢ <;> first | rfl | exact absurd h (by decide)

theorem ussd_terminal_response_deletes_session
    (now : Nat) (w : Option WeatherData) (ai : String) (store : UssdStore)
    (sid sc pn text : String)
    (h : beginsWith (agricultural_ussd now w ai store sid sc pn text).1
      "END " = true) :
    slookup (agricultural_ussd now w ai store sid sc pn text).2 sid = none := by
  simp only [agricultural_ussd] at h ⊢
  rw [ussd_apply_fst] at h
  exact ussd_apply_delete _ _ _ _ (ussd_dispatch_end_delete _ _ _ _ _ h)

/-- Witness for `ussd_terminal_response_deletes_session`: the farewell
input `5` at the main menu produces an `END ` response, and the
theorem then yields absence of the session from the store. -/
theorem ussd_terminal_response_deletes_session_witness :
    beginsWith (agricultural_ussd 0 none ""
      [("s1", ⟨"p", "main_menu_choice", [], 0⟩)]
      "s1" "" "p" "5").1 "END " = true ∧
    slookup (agricultural_ussd 0 none ""
      [("s1", ⟨"p", "main_menu_choice", [], 0⟩)]
      "s1" "" "p" "5").2 "s1" = none :=
  ⟨by decide,
   ussd_terminal_response_deletes_session 0 none ""
     [("s1", ⟨"p", "main_menu_choice", [], 0⟩)]
     "s1" "" "p" "5" (by decide)⟩

/-- C2 counterexample: a first-contact request whose accumulated text
is `1` (nonempty) does not show the main menu — the handler falls into
the unrecognized-state fallback, answers with the terminal generic
error, and deletes the freshly created session. -/
theorem ussd_first_contact_nonempty_counterexample :
    (agricultural_ussd 0 none "" [] "s1" "" "p" "1").1 =
      "END Samahani, kuna tatizo. Tafadhali anza tena." ∧
    (agricultural_ussd 0 none "" [] "s1" "" "p" "1").1 ≠
      "CON " ++ mainMenuBody ∧
    slookup (agricultural_ussd 0 none "" [] "s1" "" "p" "1").2 "s1" =
      none := by
  decide

/-- C2 (amended): for every first-contact USSD request whose
accumulated input text is empty — as the transport sends on first
contact — the handler shows the main menu and moves the session to the
main-menu step. -/
theorem ussd_first_contact_empty_text_main_menu
    (now : Nat) (w : Option WeatherData) (ai : String) (store : UssdStore)
    (sid sc pn : String) (h : slookup store sid = none) :
    (agricultural_ussd now w ai store sid sc pn "").1 =
      "CON " ++ mainMenuBody ∧
    Option.map UssdSession.current_step
      (slookup (agricultural_ussd now w ai store sid sc pn "").2 sid) =
      some "main_menu_choice" := by
  have hstrip : pyStrip "" = "" := rfl
  simp only [agricultural_ussd, h, Option.isNone_none, hstrip, if_true,
    slookup_sinsert, Option.getD_some, ussd_dispatch, ussd_apply,
    Option.map_some]
  simp [ussd_apply, slookup_sinsert]

/-- Witness for `ussd_first_contact_empty_text_main_menu` on the empty
store. -/
theorem ussd_first_contact_empty_text_main_menu_witness :
    (agricultural_ussd 0 none "" [] "s1" "" "p" "").1 =
      "CON " ++ mainMenuBody ∧
    Option.map UssdSession.current_step
      (slookup (agricultural_ussd 0 none "" [] "s1" "" "p" "").2 "s1") =
      some "main_menu_choice" :=
  ussd_first_contact_empty_text_main_menu 0 none "" [] "s1" "" "p" rfl

/-- C5: the input sequence with cumulative texts `""`, `1`, `1*2` on
one fresh session (menu, then prices, then Beans) ends in a terminal
response whose price line is the static table entry for Beans in the
default region Dar es Salaam (1950 TZS/kg), and the session is absent
from the store afterwards. -/
theorem ussd_beans_price_sequence :
    (let r1 := agricultural_ussd 0 none "" [] "s1" "" "p" ""
     let r2 := agricultural_ussd 1 none "" r1.2 "s1" "" "p" "1"
     let r3 := agricultural_ussd 2 none "" r2.2 "s1" "" "p" "1*2"
     beginsWith r3.1 "END " = true ∧
     r3.1 = "END " ++ get_crop_prices "Beans" "Dar es Salaam" ++ "\n" ++
       get_crop_price_forecast "Beans" ++
       "\nAsante kwa kutumia Kilimo Smart!" ∧
     get_crop_prices "Beans" "Dar es Salaam" =
       "Bei ya sasa ya Beans Dar es Salaam: 1950 TZS/kg." ∧
     slookup r3.2 "s1" = none) := by
  decide

/-- C3: a dialogue message whose normalized text is a greeting keyword
(`hi`, `habari`, `mambo`), sent by a sender with an existing non-empty
turn history, resets that history to the empty sequence, sends exactly
the fixed welcome message, records no turn, and makes no advisor
call. -/
theorem sms_greeting_resets_history
    (gm : Bool) (gr : Option String) (store : SmsStore) (sender msg : String)
    (hist : List SmsTurn) (hs : sender ≠ "")
    (_hmem : slookup store sender = some hist) (_hne : hist ≠ [])
    (hgreet : pyStrip (pyLower msg) ∈
      (["hi", "habari", "mambo"] : List String)) :
    (sms_chatbot gm gr store (some sender) (some msg)).store =
      sinsert store sender [] ∧
    slookup (sms_chatbot gm gr store (some sender) (some msg)).store
      sender = some [] ∧
    (sms_chatbot gm gr store (some sender) (some msg)).sentMessages =
      [send_sms sender smsWelcomeMessage] ∧
    (sms_chatbot gm gr store (some sender) (some msg)).advisorCalls = 0 := by
  have hm : msg ≠ "" := by
    intro h0
    subst h0
    exact absurd hgreet (by decide)
  simp only [sms_chatbot]
  rw [if_neg (not_or.mpr ⟨hs, hm⟩), if_pos (Or.inr hgreet)]
  exact ⟨rfl, slookup_sinsert _ _ _, rfl, rfl⟩

/-- Witness for `sms_greeting_resets_history`: the greeting `Habari`
mid-conversation. -/
theorem sms_greeting_resets_history_witness :
    (sms_chatbot true (some "r") [("u", [⟨"user", ["q"]⟩])] (some "u")
      (some "Habari")).store = sinsert [("u", [⟨"user", ["q"]⟩])] "u" [] ∧
    slookup (sms_chatbot true (some "r") [("u", [⟨"user", ["q"]⟩])]
      (some "u") (some "Habari")).store "u" = some [] ∧
    (sms_chatbot true (some "r") [("u", [⟨"user", ["q"]⟩])] (some "u")
      (some "Habari")).sentMessages = [send_sms "u" smsWelcomeMessage] ∧
    (sms_chatbot true (some "r") [("u", [⟨"user", ["q"]⟩])] (some "u")
      (some "Habari")).advisorCalls = 0 :=
  sms_greeting_resets_history true (some "r") [("u", [⟨"user", ["q"]⟩])]
    "u" "Habari" [⟨"user", ["q"]⟩] (by decide) (by decide) (by decide)
    (by decide)

/-- C4: when the advisor client was never configured, a dialogue
message that is neither a greeting nor the exit keyword produces the
fixed unavailable-service reply, no advisor call, and the history
grows by exactly one User turn (the normalized text) followed by one
Model turn (the fixed message). -/
theorem sms_advisor_unavailable_fixed_reply
    (gr : Option String) (store : SmsStore) (sender msg : String)
    (hist : List SmsTurn) (hs : sender ≠ "") (hm : msg ≠ "")
    (hmem : slookup store sender = some hist)
    (hng : pyStrip (pyLower msg) ∉
      (["hi", "habari", "mambo"] : List String))
    (hnx : pyStrip (pyLower msg) ≠ "exit") :
    (sms_chatbot false gr store (some sender) (some msg)).advisorCalls = 0 ∧
    (sms_chatbot false gr store (some sender) (some msg)).sentMessages =
      [send_sms sender smsUnavailableMessage] ∧
    slookup (sms_chatbot false gr store (some sender) (some msg)).store
      sender = some (hist ++ [⟨"user", [pyStrip (pyLower msg)]⟩,
        ⟨"model", [smsUnavailableMessage]⟩]) := by
  simp only [sms_chatbot]
  rw [if_neg (not_or.mpr ⟨hs, hm⟩), if_neg (by simp [hmem, hng]),
    if_neg hnx, if_neg (by simp)]
  refine ⟨rfl, rfl, ?_⟩
  rw [slookup_sinsert, hmem]
  simp

/-- Witness for `sms_advisor_unavailable_fixed_reply`. -/
theorem sms_advisor_unavailable_fixed_reply_witness :
    (sms_chatbot false none [("u", [⟨"user", ["q"]⟩])] (some "u")
      (some "Bei ya mahindi?")).advisorCalls = 0 ∧
    (sms_chatbot false none [("u", [⟨"user", ["q"]⟩])] (some "u")
      (some "Bei ya mahindi?")).sentMessages =
      [send_sms "u" smsUnavailableMessage] ∧
    slookup (sms_chatbot false none [("u", [⟨"user", ["q"]⟩])] (some "u")
      (some "Bei ya mahindi?")).store "u" =
      some ([⟨"user", ["q"]⟩] ++ [⟨"user", [pyStrip (pyLower "Bei ya mahindi?")]⟩,
        ⟨"model", [smsUnavailableMessage]⟩]) :=
  sms_advisor_unavailable_fixed_reply none [("u", [⟨"user", ["q"]⟩])]
    "u" "Bei ya mahindi?" [⟨"user", ["q"]⟩] (by decide) (by decide)
    (by decide) (by decide) (by decide)

/-- C9: a dialogue webhook request with the sender field or the text
field missing is acknowledged with a client-error (400) status, sends
nothing, and leaves the conversation store unchanged. -/
theorem sms_missing_fields_no_mutation
    (gm : Bool) (gr : Option String) (store : SmsStore)
    (sender text : Option String) (h : sender = none ∨ text = none) :
    (sms_chatbot gm gr store sender text).status = 400 ∧
    (sms_chatbot gm gr store sender text).store = store ∧
    (sms_chatbot gm gr store sender text).sentMessages = [] := by
  rcases h with h | h
  · subst h
    cases text <;> exact ⟨rfl, rfl, rfl⟩
  · subst h
    cases sender <;> exact ⟨rfl, rfl, rfl⟩

/-- Witness for `sms_missing_fields_no_mutation`: missing sender. -/
theorem sms_missing_fields_no_mutation_witness :
    (sms_chatbot true (some "r") [("u", [])] none (some "hi")).status =
      400 ∧
    (sms_chatbot true (some "r") [("u", [])] none (some "hi")).store =
      [("u", [])] ∧
    (sms_chatbot true (some "r") [("u", [])] none
      (some "hi")).sentMessages = [] :=
  sms_missing_fields_no_mutation true (some "r") [("u", [])] none
    (some "hi") (Or.inl rfl)

/-- C10: the exit keyword sent by a sender with no live dialogue
session does not produce the farewell: the no-session check precedes
the exit check, so the handler creates a fresh empty session and sends
the fixed welcome message, leaving a live empty-history session. -/
theorem sms_exit_without_session_gives_welcome
    (gm : Bool) (gr : Option String) (store : SmsStore) (sender : String)
    (hs : sender ≠ "") (habs : slookup store sender = none) :
    slookup (sms_chatbot gm gr store (some sender) (some "exit")).store
      sender = some [] ∧
    (sms_chatbot gm gr store (some sender) (some "exit")).sentMessages =
      [send_sms sender smsWelcomeMessage] ∧
    smsWelcomeMessage ≠ smsFarewellMessage ∧
    (sms_chatbot gm gr store (some sender) (some "exit")).advisorCalls =
      0 := by
  simp only [sms_chatbot]
  rw [if_neg (not_or.mpr ⟨hs, by decide⟩), if_pos (Or.inl (by simp [habs]))]
  exact ⟨slookup_sinsert _ _ _, rfl, by decide, rfl⟩

/-- Witness for `sms_exit_without_session_gives_welcome`. -/
theorem sms_exit_without_session_gives_welcome_witness :
    slookup (sms_chatbot true (some "r") [] (some "u")
      (some "exit")).store "u" = some [] ∧
    (sms_chatbot true (some "r") [] (some "u") (some "exit")).sentMessages =
      [send_sms "u" smsWelcomeMessage] ∧
    smsWelcomeMessage ≠ smsFarewellMessage ∧
    (sms_chatbot true (some "r") [] (some "u") (some "exit")).advisorCalls =
      0 :=
  sms_exit_without_session_gives_welcome true (some "r") [] "u"
    (by decide) rfl

/-- C6 counterexample: the region lookup of `get_crop_prices` is
case-sensitive — the same Beans query succeeds with region
`Dar es Salaam` but falls to the not-available message with region
`dar es salaam`, while the crop itself is case-insensitive. -/
theorem get_crop_prices_region_case_sensitive_counterexample :
    get_crop_prices "Beans" "dar es salaam" =
      "Bei ya Beans dar es salaam haipatikani kwa sasa. Jaribu zao au eneo tofauti." ∧
    get_crop_prices "Beans" "Dar es Salaam" =
      "Bei ya sasa ya Beans Dar es Salaam: 1950 TZS/kg." ∧
    get_crop_prices "BEANS" "Dar es Salaam" =
      "Bei ya sasa ya Beans Dar es Salaam: 1950 TZS/kg." := by
  decide

/-- C6 (amended): `get_crop_prices` looks the crop up case- and
space-insensitively (through `normalizeCrop`) but matches the region
exactly; for every pair the lookup misses it returns the not-available
message naming the given crop and region, never failing. -/
theorem get_crop_prices_characterization (crop region : String) :
    (∃ regions price,
       slookup crop_prices_table (normalizeCrop crop) = some regions ∧
       slookup regions region = some price ∧
       get_crop_prices crop region =
         "Bei ya sasa ya " ++ pyCapitalize crop ++ " " ++ region ++ ": " ++
           price ++ ".") ∨
    ((slookup crop_prices_table (normalizeCrop crop)).elim True
       (fun regions => slookup regions region = none) ∧
     get_crop_prices crop region =
       "Bei ya " ++ pyCapitalize crop ++ " " ++ region ++
         " haipatikani kwa sasa. Jaribu zao au eneo tofauti.") := by
  unfold get_crop_prices
  cases h1 : slookup crop_prices_table (normalizeCrop crop) with
  | none => exact Or.inr ⟨trivial, rfl⟩
  | some regions =>
    cases h2 : slookup regions region with
    | none =>
      refine Or.inr ⟨h2, ?_⟩
      simp only [h2]
    | some price =>
      refine Or.inl ⟨regions, price, rfl, ?_, ?_⟩ <;> simp only [h2]

/-- C7 counterexample: the expiry sweep deletes the one expired
session but returns `None` (no count); the claimed count of removed
sessions (1) is not returned. -/
theorem cleanup_old_sessions_no_count_counterexample :
    (cleanup_old_sessions 1000 [("s1", ⟨"p", "welcome", [], 0⟩)]).1 = [] ∧
    (cleanup_old_sessions 1000 [("s1", ⟨"p", "welcome", [], 0⟩)]).2 ≠
      some 1 := by
  decide

/-- C7 (amended): the expiry sweep deletes exactly those menu sessions
whose `last_active` timestamp is more than `SESSION_TIMEOUT` before
the current time — every other entry stays in the store — and returns
no value (Python `None`), not a removal count. -/
theorem cleanup_old_sessions_removes_exactly_expired
    (current_time : Nat) (store : UssdStore) (p : String × UssdSession) :
    (p ∈ (cleanup_old_sessions current_time store).1 ↔
      p ∈ store ∧ current_time - p.2.last_active ≤ SESSION_TIMEOUT) ∧
    (cleanup_old_sessions current_time store).2 = none := by
  constructor
  · simp [cleanup_old_sessions, List.mem_filter, not_lt]
  · rfl

/-- The head of a list stripped of its leading zeros is not a zero. -/
theorem head_dropWhile_zero (l : List Char) :
    (l.dropWhile (fun c => c = '0')).head? ≠ some '0' := by
  induction l with
  | nil => simp
  | cons c cs ih =>
    by_cases h : c = '0'
    · simpa [List.dropWhile_cons, h] using ih
    · simp [List.dropWhile_cons, h]

/-- C8 counterexample: a recipient with two leading zeros: `send_sms`
strips them both, while the specified strip-exactly-one-zero
normalization would keep the second. -/
theorem send_sms_strip_one_zero_counterexample :
    (send_sms "00712345678" "m").1 ≠
      send_sms_spec_recipient "00712345678" ∧
    (send_sms "00712345678" "m").1 = "+255712345678" ∧
    send_sms_spec_recipient "00712345678" = "+2550712345678" := by
  decide

/-- C8 (amended): recipients not starting with `+` are normalized by
stripping every leading zero and prepending the fixed `+255` country
prefix (so the remainder never starts with a zero); recipients already
starting with `+` are sent unchanged. -/
theorem send_sms_recipient_normalization (phone message : String) :
    (beginsWith phone "+" = true →
      send_sms phone message = (phone, message)) ∧
    (beginsWith phone "+" = false →
      (send_sms phone message).1 = "+255" ++ pyLstripZeros phone ∧
      (pyLstripZeros phone).data.head? ≠ some '0') := by
  constructor
  · intro h
    simp [send_sms, h]
  · intro h
    refine ⟨by simp [send_sms, h], ?_⟩
    simpa [pyLstripZeros] using head_dropWhile_zero phone.data

/-- Witness for `send_sms_recipient_normalization` on a local-format
recipient. -/
theorem send_sms_recipient_normalization_witness :
    (send_sms "0712345678" "karibu").1 = "+255" ++
      pyLstripZeros "0712345678" ∧
    (pyLstripZeros "0712345678").data.head? ≠ some '0' :=
  (send_sms_recipient_normalization "0712345678" "karibu").2 (by decide)
